import Mathlib

/-!
Verification of the convolution dispatch runtime in
xla/service/gpu/runtime/conv.cc (luxteam/xla).

The development shallowly embeds the source file: attribute structs are Lean
structures, the descriptor builder GetConvDescriptor is a Lean function that
returns Option (an out-of-bounds indexed access in the C++ code is modelled
as none), DoConv is a pure function over an explicit environment of external
capabilities (autotuner search, allocator, device primitive, stream health)
and an explicit cached-runner state, and the two-level runner cache of
ConvRunners is an association-list map.
-/

set_option linter.unusedVariables false

/-- Convolution kinds, mirroring CudnnConvKind. -/
inductive CudnnConvKind
  | kForward
  | kBackwardInput
  | kBackwardFilter
  | kForwardActivation
  | kForwardGraph
  deriving DecidableEq

/-- Activation modes, mirroring se::dnn::ActivationMode. -/
inductive ActivationMode
  | kNone
  | kSigmoid
  | kRelu
  | kRelu6
  | kReluX
  | kTanh
  | kBandPass
  | kElu
  | kLeakyRelu
  deriving DecidableEq

/-- Math modes of se::dnn::AlgorithmProto. -/
inductive MathType
  | defaultMath
  | tensorOpMath
  deriving DecidableEq

/-- A strided memref argument: device address plus logical dimensions. -/
structure StridedMemrefView where
  addr : Nat
  dims : List Int
  deriving DecidableEq

/-- A flat memref argument: device address plus size in bytes. -/
structure FlatMemrefView where
  addr : Nat
  size_in_bytes : Nat
  deriving DecidableEq

/-- Mirrors xla::gpu::ConvDimensionNumbers from conv.cc. -/
structure ConvDimensionNumbers where
  input_batch_dim : Int
  input_feature_dim : Int
  input_spatial_dims : List Int
  kernel_in_feature_dim : Int
  kernel_out_feature_dim : Int
  kernel_spatial_dims : List Int
  output_batch_dim : Int
  output_feature_dim : Int
  output_spatial_dims : List Int
  deriving DecidableEq

/-- Mirrors xla::gpu::ConvBackendConfig from conv.cc. -/
structure ConvBackendConfig where
  algorithm : Int
  tensor_ops_enabled : Bool
  is_cudnn_frontend : Bool
  is_cudnn_reordered_int8 : Bool
  knob_ids : List Int
  knob_values : List Int
  operand_0_layout : List Int
  operand_1_layout : List Int
  result_layout : List Int
  workspace_size : Int
  deriving DecidableEq

/-- Mirrors the anonymous Window struct of conv.cc. -/
structure Window where
  window_strides : List Int
  padding : List Int
  lhs_dilation : List Int
  rhs_dilation : List Int
  window_reversal : List Int
  deriving DecidableEq

/-- Mirrors the anonymous ConvAttrs struct of conv.cc. -/
structure ConvAttrs where
  feature_group_count : Int
  result_scale : Rat
  deriving DecidableEq

/-- Mirrors FusedConvAttrs of conv.cc. -/
structure FusedConvAttrs where
  activation_mode : ActivationMode
  deriving DecidableEq

/-- Mirrors SideInputAttrs of conv.cc. -/
structure SideInputAttrs where
  side_input_scale : Rat
  deriving DecidableEq

/-- Mirrors LeakyReluAlphaAttrs of conv.cc. -/
structure LeakyReluAlphaAttrs where
  leaky_relu_alpha : Rat
  deriving DecidableEq

/-- A laid-out shape: dimensions plus a minor-to-major ordering, as produced
by ShapeUtil::MakeShapeWithDenseLayout. -/
structure Shape where
  dims : List Int
  minor_to_major : List Int
  deriving DecidableEq

/-- One dimension of the xla Window proto as filled in by GetConvDescriptor. -/
structure WindowDimension where
  size : Int
  stride : Int
  padding_low : Int
  padding_high : Int
  base_dilation : Int
  window_dilation : Int
  window_reversal : Bool
  deriving DecidableEq

/-- The algorithm part of the descriptor backend config
(se::dnn::AlgorithmProto). -/
structure AlgorithmProto where
  algo_id : Int
  math_type : MathType
  is_cudnn_frontend : Bool
  workspace_size : Option Int
  tuning_knobs : List (Int × Int)
  deriving DecidableEq

/-- The cudnn backend config embedded in a GpuConvDescriptor. -/
structure CudnnConvBackendConfig where
  conv_result_scale : Rat
  reordered_int8_nchw_vect : Bool
  algorithm : AlgorithmProto
  activation_mode : Option ActivationMode
  side_input_scale : Option Rat
  leakyrelu_alpha : Option Rat
  serialized_graph : Option String
  deriving DecidableEq

/-- The canonical convolution descriptor built by GetConvDescriptor. -/
structure GpuConvDescriptor where
  kind : CudnnConvKind
  operand0_shape : Shape
  operand1_shape : Shape
  result_shape : Shape
  dnums : ConvDimensionNumbers
  window : List WindowDimension
  scratch_size : Nat
  feature_group_count : Int
  backend_config : CudnnConvBackendConfig
  deriving DecidableEq

/-- Mirrors the apply_layout lambda of GetConvDescriptor: keep the logical
dimensions of the memref and attach the minor-to-major ordering carried by
the backend config. -/
def applyLayout (memref : StridedMemrefView) (minor_to_major : List Int) : Shape :=
  { dims := memref.dims, minor_to_major := minor_to_major }

/-- Index a list at a signed index, as Shape::dimensions(int) is indexed in
the window loop of GetConvDescriptor; an out-of-range access yields none. -/
def intGet (l : List Int) (i : Int) : Option Int :=
  if 0 ≤ i then l[i.toNat]? else none

/-- Evaluate an Option-valued function over a list left to right, failing as
soon as one element fails; this is the shape of the C++ loops that index
spans and abort on the first out-of-bounds access. -/
def optionTraverse {α β : Type} (f : α → Option β) : List α → Option (List β)
  | [] => some []
  | a :: t =>
    match f a with
    | none => none
    | some b =>
      match optionTraverse f t with
      | none => none
      | some bs => some (b :: bs)

/-- Evaluate an Except-valued function over a list left to right, returning
the first error; this is the shape of the argument-resolution loops of
ConvGraphImpl. -/
def exceptTraverse {α β : Type} (f : α → Except String β) :
    List α → Except String (List β)
  | [] => .ok []
  | a :: t =>
    match f a with
    | .error e => .error e
    | .ok b =>
      match exceptTraverse f t with
      | .error e => .error e
      | .ok bs => .ok (b :: bs)

/-- One iteration of the window loop of GetConvDescriptor (conv.cc lines 279
to 293): the window size is read from operand0_shape at the axis named by
the kernel spatial dimension list, and stride, padding, dilations and
reversal are read from the caller-supplied spans at the loop index. -/
def buildWindowDim (dnums : ConvDimensionNumbers) (operand0_shape : Shape)
    (w : Window) (index : Nat) : Option WindowDimension := do
  let kernel_dim ← dnums.kernel_spatial_dims[index]?
  let size ← intGet operand0_shape.dims kernel_dim
  let stride ← w.window_strides[index]?
  let pad ← w.padding[index]?
  let lhs_dil ← w.lhs_dilation[index]?
  let rhs_dil ← w.rhs_dilation[index]?
  let rev ← w.window_reversal[index]?
  some { size := size, stride := stride, padding_low := pad, padding_high := pad,
         base_dilation := lhs_dil, window_dilation := rhs_dil,
         window_reversal := rev != 0 }

/-- The whole window loop: one WindowDimension per entry of window_strides. -/
def buildWindow (dnums : ConvDimensionNumbers) (operand0_shape : Shape)
    (w : Window) : Option (List WindowDimension) :=
  optionTraverse (buildWindowDim dnums operand0_shape w) (List.range w.window_strides.length)

/-- The tuning-knob loop of GetConvDescriptor (conv.cc lines 312 to 314):
knob_values is indexed at every index of knob_ids. -/
def buildKnobs (knob_ids knob_values : List Int) : Option (List (Int × Int)) :=
  optionTraverse (fun i => do
    let kid ← knob_ids[i]?
    let kval ← knob_values[i]?
    some (kid, kval)) (List.range knob_ids.length)

/-- Shallow embedding of GetConvDescriptor (conv.cc lines 236 to 331). An
indexed access that would be out of bounds in the C++ code makes the result
none. -/
def getConvDescriptor (kind : CudnnConvKind)
    (operand0 operand1 output : StridedMemrefView) (scratch : FlatMemrefView)
    (dims : ConvDimensionNumbers) (w : Window) (b : ConvBackendConfig)
    (attrs : ConvAttrs) (fused : Option FusedConvAttrs)
    (side_input : Option SideInputAttrs)
    (leakyrelu_alpha : Option LeakyReluAlphaAttrs) : Option GpuConvDescriptor := do
  let operand0_shape := applyLayout operand0 b.operand_0_layout
  let operand1_shape := applyLayout operand1 b.operand_1_layout
  let result_shape := applyLayout output b.result_layout
  let dnums : ConvDimensionNumbers :=
    { input_batch_dim := dims.input_batch_dim
      input_feature_dim := dims.input_feature_dim
      input_spatial_dims := dims.input_spatial_dims
      kernel_in_feature_dim := dims.kernel_in_feature_dim
      kernel_out_feature_dim := dims.kernel_out_feature_dim
      kernel_spatial_dims := dims.kernel_spatial_dims
      output_batch_dim := dims.output_batch_dim
      output_feature_dim := dims.output_feature_dim
      output_spatial_dims := dims.output_spatial_dims }
  let window ← buildWindow dnums operand0_shape w
  let knobs ← buildKnobs b.knob_ids b.knob_values
  let algo : AlgorithmProto :=
    { algo_id := b.algorithm
      math_type := if b.tensor_ops_enabled then .tensorOpMath else .defaultMath
      is_cudnn_frontend := b.is_cudnn_frontend
      workspace_size := if b.workspace_size ≥ 0 then some b.workspace_size else none
      tuning_knobs := knobs }
  some { kind := kind
         operand0_shape := operand0_shape
         operand1_shape := operand1_shape
         result_shape := result_shape
         dnums := dnums
         window := window
         scratch_size := scratch.size_in_bytes
         feature_group_count := attrs.feature_group_count
         backend_config :=
           { conv_result_scale := attrs.result_scale
             reordered_int8_nchw_vect := b.is_cudnn_reordered_int8
             algorithm := algo
             activation_mode := fused.map (fun f => f.activation_mode)
             side_input_scale := side_input.map (fun s => s.side_input_scale)
             leakyrelu_alpha := leakyrelu_alpha.map (fun l => l.leaky_relu_alpha)
             serialized_graph := none } }

/-- The algorithm description stored in a GpuConvConfig
(se::dnn::AlgorithmDesc). -/
structure AlgorithmDesc where
  algo_id : Int
  tensor_ops_enabled : Bool
  deriving DecidableEq

/-- The compiled convolution configuration produced by GetGpuConvConfig;
only the parts this runtime reads or writes are modelled: the algorithm
(overwritten by runtime autotuning) and the originating descriptor. -/
structure GpuConvConfig where
  algorithm : AlgorithmDesc
  desc : GpuConvDescriptor
  deriving DecidableEq

/-- Modelled from the spec: GetGpuConvConfig lives in gpu_conv_runner.cc,
outside this source unit; the spec treats plan compilation as an opaque step
that embeds the descriptor and its algorithm into the plan. -/
def getGpuConvConfig (d : GpuConvDescriptor) : GpuConvConfig :=
  { algorithm :=
      { algo_id := d.backend_config.algorithm.algo_id
        tensor_ops_enabled := d.backend_config.algorithm.math_type == .tensorOpMath }
    desc := d }

/-- The cached unit: mirrors ConvRunner (a compiled GpuConvConfig plus a
runner cache, the latter opaque to the claims). -/
structure ConvRunner where
  config : GpuConvConfig
  deriving DecidableEq

/-- The result of the autotuner search capability
(GpuConvAlgorithmPicker::PickBestAlgorithmWithAllocatedBuffer). -/
structure AutotuneResult where
  algo_id : Int
  tensor_ops_enabled : Bool
  scratch_bytes : Nat
  deriving DecidableEq

/-- The external capabilities DoConv consumes, made explicit: build-time
availability of the search capability, the outcome of the search, the
allocator, the device primitive and the stream health flag. -/
structure Env where
  cudaEnabled : Bool
  searchResult : Except String AutotuneResult
  allocOk : Bool
  freshAddr : Nat
  runConvResult : Except String Unit
  streamOk : Bool
  deviceOrdinal : Nat

/-- One issued device convolution: the algorithm of the plan used, the bound
operand and result device addresses, and the scratch buffer actually passed. -/
structure ExecCall where
  algorithm : AlgorithmDesc
  operand_buffers : List Nat
  result_buffers : List Nat
  scratch_addr : Nat
  scratch_size : Nat
  deriving DecidableEq

/-- Observable outcome of one DoConv invocation: the returned status, the
cached runner afterwards, and traces of the builder, the search, the
allocator and the execution engine. -/
structure DoConvResult where
  status : Except String Unit
  runnerAfter : Option ConvRunner
  builderInvoked : Bool
  builtDescriptor : Option GpuConvDescriptor
  searchInvoked : Bool
  allocRequests : List (Nat × Nat)
  execCalls : List ExecCall
  requiredScratch : Option Nat
  streamChecked : Bool

/-- The flat parameter list of DoConv (conv.cc lines 334 to 360). -/
structure DoConvArgs where
  kind : CudnnConvKind
  operand0 : StridedMemrefView
  operand1 : StridedMemrefView
  bias : Option FlatMemrefView
  side_input : Option StridedMemrefView
  outputs : List StridedMemrefView
  scratch : FlatMemrefView
  uid : Int
  conv_dims : ConvDimensionNumbers
  window_strides : List Int
  padding : List Int
  lhs_dilation : List Int
  rhs_dilation : List Int
  window_reversal : List Int
  backend_config : ConvBackendConfig
  feature_group_count : Int
  result_scale : Rat
  activation_mode : Option ActivationMode
  side_input_scale : Option Rat
  leakyrelu_alpha : Option Rat
  extra_operands : List StridedMemrefView
  serialized_graph : Option String
  deriving DecidableEq

/-- The GetOrCreate builder lambda of DoConv (conv.cc lines 382 to 397):
build the descriptor, optionally attach the serialized graph, and compile
the plan. The backend config passed here is the one already pinned by the
sentinel check. -/
def buildConvRunner (a : DoConvArgs) (bc : ConvBackendConfig) : Except String ConvRunner :=
  match a.outputs.head? with
  | none => .error "no output buffer for convolution"
  | some output =>
    match getConvDescriptor a.kind a.operand0 a.operand1 output a.scratch a.conv_dims
        { window_strides := a.window_strides
          padding := a.padding
          lhs_dilation := a.lhs_dilation
          rhs_dilation := a.rhs_dilation
          window_reversal := a.window_reversal }
        bc
        { feature_group_count := a.feature_group_count, result_scale := a.result_scale }
        (a.activation_mode.map (fun m => { activation_mode := m }))
        (a.side_input_scale.map (fun s => { side_input_scale := s }))
        (a.leakyrelu_alpha.map (fun l => { leaky_relu_alpha := l })) with
    | none => .error "failed to build convolution descriptor"
    | some descriptor =>
      let descriptor :=
        match a.serialized_graph with
        | some g =>
          { descriptor with backend_config :=
              { descriptor.backend_config with serialized_graph := some g } }
        | none => descriptor
      .ok { config := getGpuConvConfig descriptor }

/-- The tail of both execution paths of DoConv (conv.cc lines 456 to 473):
issue the primitive, then check the stream; a stream in an error state makes
the call fail even when the primitive itself reported success. -/
def runAndCheckStream (env : Env) : Except String Unit :=
  match env.runConvResult with
  | .error e => .error e
  | .ok _ => if env.streamOk then .ok () else .error "run_options stream not ok"

/-- The scratch sizing and execution phase of DoConv (conv.cc lines 444 to
473): if the required scratch size exceeds the caller-supplied buffer, a
fresh allocation of the required size is requested from the allocator for
the current device ordinal and used instead; otherwise the supplied buffer
is used unchanged. -/
def execPhase (env : Env) (a : DoConvArgs) (conv : ConvRunner)
    (builderInvoked : Bool) (builtDesc : Option GpuConvDescriptor)
    (searchInvoked : Bool) (scratch_buffer_size : Nat)
    (buffers result_buffers : List Nat) : DoConvResult :=
  if a.scratch.size_in_bytes < scratch_buffer_size then
    if env.allocOk then
      { status := runAndCheckStream env
        runnerAfter := some conv
        builderInvoked := builderInvoked
        builtDescriptor := builtDesc
        searchInvoked := searchInvoked
        allocRequests := [(env.deviceOrdinal, scratch_buffer_size)]
        execCalls := [{ algorithm := conv.config.algorithm
                        operand_buffers := buffers
                        result_buffers := result_buffers
                        scratch_addr := env.freshAddr
                        scratch_size := scratch_buffer_size }]
        requiredScratch := some scratch_buffer_size
        streamChecked := match env.runConvResult with | .ok _ => true | .error _ => false }
    else
      { status := .error "scratch allocation failed"
        runnerAfter := some conv
        builderInvoked := builderInvoked
        builtDescriptor := builtDesc
        searchInvoked := searchInvoked
        allocRequests := [(env.deviceOrdinal, scratch_buffer_size)]
        execCalls := []
        requiredScratch := some scratch_buffer_size
        streamChecked := false }
  else
    { status := runAndCheckStream env
      runnerAfter := some conv
      builderInvoked := builderInvoked
      builtDescriptor := builtDesc
      searchInvoked := searchInvoked
      allocRequests := []
      execCalls := [{ algorithm := conv.config.algorithm
                      operand_buffers := buffers
                      result_buffers := result_buffers
                      scratch_addr := a.scratch.addr
                      scratch_size := a.scratch.size_in_bytes }]
      requiredScratch := some scratch_buffer_size
      streamChecked := match env.runConvResult with | .ok _ => true | .error _ => false }

/-- The operand buffer list of DoConv (conv.cc lines 400 to 406): the two
main operands, then bias and side input when present, then the extra
operands of the graph variant. -/
def convOperandBuffers (a : DoConvArgs) : List Nat :=
  [a.operand0.addr, a.operand1.addr]
    ++ (match a.bias with | some b => [b.addr] | none => [])
    ++ (match a.side_input with | some s => [s.addr] | none => [])
    ++ a.extra_operands.map (fun o => o.addr)

/-- The result buffer list of DoConv (conv.cc lines 408 to 411). -/
def convResultBuffers (a : DoConvArgs) : List Nat :=
  a.outputs.map (fun o => o.addr)

/-- DoConv after the runner has been resolved (conv.cc lines 399 to 473):
bind buffers, run the one-shot autotuner when the algorithm attribute was
the sentinel, then size scratch and execute. The autotuner, when it runs,
overwrites the algorithm of the cached plan and replaces the effective
scratch size with the one the search reported. -/
def doConvRest (env : Env) (a : DoConvArgs) (conv : ConvRunner)
    (builderInvoked : Bool) (builtDesc : Option GpuConvDescriptor)
    (runtime_autotuning : Bool) : DoConvResult :=
  let buffers := convOperandBuffers a
  let result_buffers := convResultBuffers a
  if runtime_autotuning then
    if env.cudaEnabled then
      match env.searchResult with
      | .error e =>
        { status := .error e
          runnerAfter := some conv
          builderInvoked := builderInvoked
          builtDescriptor := builtDesc
          searchInvoked := true
          allocRequests := []
          execCalls := []
          requiredScratch := none
          streamChecked := false }
      | .ok best_algo =>
        let conv :=
          { conv with config :=
              { conv.config with algorithm :=
                  { algo_id := best_algo.algo_id
                    tensor_ops_enabled := best_algo.tensor_ops_enabled } } }
        execPhase env a conv builderInvoked builtDesc true best_algo.scratch_bytes
          buffers result_buffers
    else
      { status := .error "Failed to run runtime autotuner because CUDA is not enabled"
        runnerAfter := some conv
        builderInvoked := builderInvoked
        builtDescriptor := builtDesc
        searchInvoked := false
        allocRequests := []
        execCalls := []
        requiredScratch := none
        streamChecked := false }
  else
    execPhase env a conv builderInvoked builtDesc false a.scratch.size_in_bytes
      buffers result_buffers

/-- Shallow embedding of DoConv (conv.cc lines 333 to 474). The cached
runner state is passed explicitly: none models a first invocation at this
call site, some models a later one; runnerAfter of the result is the state
afterwards. The sentinel check and the pinning of the algorithm to the
default value happen before the plan is built. -/
def doConv (env : Env) (runner : Option ConvRunner) (a : DoConvArgs) : DoConvResult :=
  let runtime_autotuning : Bool := decide (a.backend_config.algorithm = -1)
  let bc :=
    if runtime_autotuning then { a.backend_config with algorithm := 0 }
    else a.backend_config
  match runner with
  | some conv => doConvRest env a conv false none runtime_autotuning
  | none =>
    match buildConvRunner a bc with
    | .error e =>
      { status := .error e
        runnerAfter := none
        builderInvoked := true
        builtDescriptor := none
        searchInvoked := false
        allocRequests := []
        execCalls := []
        requiredScratch := none
        streamChecked := false }
    | .ok conv => doConvRest env a conv true (some conv.config.desc) runtime_autotuning

/-- One entry of the flat remaining-argument list of the graph call shape.
The runtime resolves an entry on demand; an entry that cannot be resolved as
the requested view type is modelled by none. -/
structure GraphArg where
  asStrided : Option StridedMemrefView
  asFlat : Option FlatMemrefView
  deriving DecidableEq

/-- The integers from lo (inclusive) to hi (exclusive); empty when hi ≤ lo.
This is the index sequence of a C++ for loop over signed ints. -/
def intRange (lo hi : Int) : List Int :=
  (List.range (hi - lo).toNat).map (fun (k : Nat) => lo + (k : Int))

/-- Mirrors args.get of StridedMemrefView type at a signed index: fails for
an index outside the list or an entry of the wrong type. -/
def getStridedArg (args : List GraphArg) (i : Int) : Option StridedMemrefView :=
  if 0 ≤ i then
    match args[i.toNat]? with
    | some arg => arg.asStrided
    | none => none
  else none

/-- Mirrors args.get of FlatMemrefView type at a signed index. -/
def getFlatArg (args : List GraphArg) (i : Int) : Option FlatMemrefView :=
  if 0 ≤ i then
    match args[i.toNat]? with
    | some arg => arg.asFlat
    | none => none
  else none

/-- The argument binder of ConvGraphImpl (conv.cc lines 531 to 555). With N
the length of args and A the declared auxiliary-output count, the first
N - A - 2 entries are extra operands, the next A + 1 entries are outputs and
the last entry is the scratch buffer; a failed resolution aborts with an
internal error naming the group. Loop bounds follow the signed mathematical
reading of the C++ loop indices, so a negative bound makes a range empty and
a negative index fails to resolve. -/
def convGraphBind (args : List GraphArg) (n_aux_outputs : Int) :
    Except String (List StridedMemrefView × List StridedMemrefView × FlatMemrefView) := do
  let n : Int := args.length
  let extra_operands ← exceptTraverse (fun i =>
    match getStridedArg args i with
    | some v => Except.ok v
    | none => Except.error "Failed to get operand buffer for convolution graph")
    (intRange 0 (n - n_aux_outputs - 2))
  let outputs ← exceptTraverse (fun i =>
    match getStridedArg args i with
    | some v => Except.ok v
    | none => Except.error "Failed to get output buffer for convolution graph")
    (intRange (n - n_aux_outputs - 2) (n - 1))
  match getFlatArg args (n - 1) with
  | some scratch => Except.ok (extra_operands, outputs, scratch)
  | none => Except.error "Failed to get scratch buffer for convolution graph"

/-- Shallow embedding of ConvGraphImpl (conv.cc lines 507 to 564): bind the
flat argument list, and only when binding succeeded run DoConv with the
resolved operands, outputs and scratch. A binding failure returns the error
without touching the runner or any device state. -/
def convGraphImpl (env : Env) (runner : Option ConvRunner) (kind : CudnnConvKind)
    (operand0 operand1 : StridedMemrefView) (args : List GraphArg) (uid : Int)
    (conv_dims : ConvDimensionNumbers)
    (window_strides padding lhs_dilation rhs_dilation window_reversal : List Int)
    (backend_config : ConvBackendConfig) (feature_group_count : Int)
    (result_scale : Rat) (n_aux_outputs : Int) (serialized_graph : String) :
    DoConvResult :=
  match convGraphBind args n_aux_outputs with
  | .error e =>
    { status := .error e
      runnerAfter := runner
      builderInvoked := false
      builtDescriptor := none
      searchInvoked := false
      allocRequests := []
      execCalls := []
      requiredScratch := none
      streamChecked := false }
  | .ok (extra_operands, outputs, scratch) =>
    doConv env runner
      { kind := kind
        operand0 := operand0
        operand1 := operand1
        bias := none
        side_input := none
        outputs := outputs
        scratch := scratch
        uid := uid
        conv_dims := conv_dims
        window_strides := window_strides
        padding := padding
        lhs_dilation := lhs_dilation
        rhs_dilation := rhs_dilation
        window_reversal := window_reversal
        backend_config := backend_config
        feature_group_count := feature_group_count
        result_scale := result_scale
        activation_mode := none
        side_input_scale := none
        leakyrelu_alpha := none
        extra_operands := extra_operands
        serialized_graph := some serialized_graph }

/-- The per-context sub-map of the plan cache: call-site id to runner. -/
abbrev StreamExecutorConvRunners := List (Int × ConvRunner)

/-- The two-level plan cache of ConvRunners (conv.cc lines 197 to 201):
stream-executor identity to per-context sub-map. -/
structure ConvRunnersCache where
  runners : List (Nat × StreamExecutorConvRunners)

/-- Mirrors ConvRunners::operator(): the sub-map for an executor; an absent
executor maps to the default-constructed empty sub-map. -/
def lookupExecutor (c : ConvRunnersCache) (executor : Nat) : StreamExecutorConvRunners :=
  match c.runners.find? (fun p => p.1 == executor) with
  | some p => p.2
  | none => []

/-- Store a sub-map under an executor key, replacing the previous one. -/
def setExecutor : List (Nat × StreamExecutorConvRunners) → Nat →
    StreamExecutorConvRunners → List (Nat × StreamExecutorConvRunners)
  | [], e, m => [(e, m)]
  | (k, v) :: rest, e, m =>
    if k == e then (e, m) :: rest else (k, v) :: setExecutor rest e m

/-- Lookup of a call-site id inside a per-context sub-map. -/
def subLookup (m : StreamExecutorConvRunners) (uid : Int) : Option ConvRunner :=
  match m.find? (fun p => p.1 == uid) with
  | some p => some p.2
  | none => none

/-- Install or overwrite the runner of a call-site id in a sub-map. -/
def subInsert : StreamExecutorConvRunners → Int → ConvRunner → StreamExecutorConvRunners
  | [], uid, r => [(uid, r)]
  | (k, v) :: rest, uid, r =>
    if k == uid then (uid, r) :: rest else (k, v) :: subInsert rest uid r

/-- A mutation of the plan of one call site inside one execution context:
fetch the sub-map of the executor, update the entry of the call site, and
store the sub-map back. -/
def updateRunner (c : ConvRunnersCache) (executor : Nat) (uid : Int)
    (r : ConvRunner) : ConvRunnersCache :=
  { runners := setExecutor c.runners executor (subInsert (lookupExecutor c executor) uid r) }

/-- The plan a given (executor, call-site id) pair observes. -/
def lookupRunner (c : ConvRunnersCache) (executor : Nat) (uid : Int) : Option ConvRunner :=
  subLookup (lookupExecutor c executor) uid

/-- Dimension numbers of a rank-2 NCHW convolution with OIHW kernel. -/
def exConvDims : ConvDimensionNumbers :=
  { input_batch_dim := 0
    input_feature_dim := 1
    input_spatial_dims := [2, 3]
    kernel_in_feature_dim := 1
    kernel_out_feature_dim := 0
    kernel_spatial_dims := [2, 3]
    output_batch_dim := 0
    output_feature_dim := 1
    output_spatial_dims := [2, 3] }

/-- A rank-2 window configuration: unit strides, no padding, no dilation. -/
def exWindow : Window :=
  { window_strides := [1, 1]
    padding := [0, 0]
    lhs_dilation := [1, 1]
    rhs_dilation := [1, 1]
    window_reversal := [0, 0] }

/-- A backend config with the given algorithm id and workspace size. -/
def exBackendConfig (algorithm workspace : Int) : ConvBackendConfig :=
  { algorithm := algorithm
    tensor_ops_enabled := false
    is_cudnn_frontend := true
    is_cudnn_reordered_int8 := false
    knob_ids := []
    knob_values := []
    operand_0_layout := [3, 2, 1, 0]
    operand_1_layout := [3, 2, 1, 0]
    result_layout := [3, 2, 1, 0]
    workspace_size := workspace }

/-- Input operand of shape 1 x 1 x 5 x 7. -/
def exOperand0 : StridedMemrefView := { addr := 100, dims := [1, 1, 5, 7] }

/-- Kernel operand of shape 1 x 1 x 9 x 11: its extents at the kernel
spatial axes 2 and 3 are 9 and 11, deliberately different from the extents
of exOperand0 there. -/
def exOperand1 : StridedMemrefView := { addr := 200, dims := [1, 1, 9, 11] }

/-- Output buffer. -/
def exOutput : StridedMemrefView := { addr := 300, dims := [1, 1, 5, 7] }

/-- Caller-supplied scratch buffer of 64 bytes. -/
def exScratch : FlatMemrefView := { addr := 400, size_in_bytes := 64 }

/-- A complete DoConv argument list over the example buffers, parameterised
by the backend-config algorithm id. -/
def exDoConvArgs (algorithm : Int) : DoConvArgs :=
  { kind := .kForward
    operand0 := exOperand0
    operand1 := exOperand1
    bias := none
    side_input := none
    outputs := [exOutput]
    scratch := exScratch
    uid := 0
    conv_dims := exConvDims
    window_strides := [1, 1]
    padding := [0, 0]
    lhs_dilation := [1, 1]
    rhs_dilation := [1, 1]
    window_reversal := [0, 0]
    backend_config := exBackendConfig algorithm (-1)
    feature_group_count := 1
    result_scale := 1
    activation_mode := none
    side_input_scale := none
    leakyrelu_alpha := none
    extra_operands := []
    serialized_graph := none }

/-- An environment in which every external capability succeeds: the search
returns algorithm 7 with a 999-byte scratch requirement. -/
def exEnvOk : Env :=
  { cudaEnabled := true
    searchResult := .ok { algo_id := 7, tensor_ops_enabled := true, scratch_bytes := 999 }
    allocOk := true
    freshAddr := 42
    runConvResult := .ok ()
    streamOk := true
    deviceOrdinal := 3 }

/-- The same environment with the search capability absent from the build. -/
def exEnvNoCuda : Env :=
  { exEnvOk with cudaEnabled := false }

/-- A small concrete descriptor for cache-level examples. -/
def exDescriptor : GpuConvDescriptor :=
  { kind := .kForward
    operand0_shape := { dims := [1], minor_to_major := [0] }
    operand1_shape := { dims := [1], minor_to_major := [0] }
    result_shape := { dims := [1], minor_to_major := [0] }
    dnums := exConvDims
    window := []
    scratch_size := 0
    feature_group_count := 1
    backend_config :=
      { conv_result_scale := 1
        reordered_int8_nchw_vect := false
        algorithm := { algo_id := 0, math_type := .defaultMath, is_cudnn_frontend := true,
                       workspace_size := none, tuning_knobs := [] }
        activation_mode := none
        side_input_scale := none
        leakyrelu_alpha := none
        serialized_graph := none } }

/-- A concrete cached runner built over exDescriptor. -/
def exRunner : ConvRunner := { config := getGpuConvConfig exDescriptor }

/-- The k-th flat graph argument: resolvable both as a strided view and as a
flat view. -/
def exGraphArg (k : Nat) : GraphArg :=
  { asStrided := some { addr := k, dims := [1] }
    asFlat := some { addr := k, size_in_bytes := 8 } }

/-- A flat graph argument list of length 7, as in the worked example of the
spec (n_aux_outputs = 2, so 3 extra operands, 3 outputs, 1 scratch). -/
def exGraphArgs : List GraphArg := (List.range 7).map exGraphArg

/-- The strided view the i-th entry of exGraphArgs resolves to. -/
def exGraphV (i : Int) : StridedMemrefView := { addr := i.toNat, dims := [1] }

/-- A one-entry argument list whose single entry resolves as a flat view;
with any declared auxiliary-output count it is too short to bind. -/
def exShortArgs : List GraphArg :=
  [{ asStrided := some { addr := 0, dims := [1] }
     asFlat := some { addr := 0, size_in_bytes := 8 } }]

/-! Generic lemmas about the traversal helpers and integer ranges. -/

theorem optionTraverse_length {α β : Type} (f : α → Option β) :
    ∀ (l : List α) (ys : List β), optionTraverse f l = some ys → ys.length = l.length := by
  intro l
  induction l with
  | nil =>
    intro ys h
    simp only [optionTraverse, Option.some.injEq] at h
    simp [← h]
  | cons a t ih =>
    intro ys h
    simp only [optionTraverse] at h
    cases hfa : f a with
    | none => rw [hfa] at h; cases h
    | some b =>
      rw [hfa] at h
      cases ht : optionTraverse f t with
      | none => rw [ht] at h; cases h
      | some bs =>
        rw [ht] at h
        simp only [Option.some.injEq] at h
        subst h
        simp [ih bs ht]

theorem optionTraverse_isSome {α β : Type} (f : α → Option β) :
    ∀ (l : List α), (∀ x ∈ l, (f x).isSome) →
      ∃ ys, optionTraverse f l = some ys ∧ ys.length = l.length := by
  intro l
  induction l with
  | nil => intro _; exact ⟨[], rfl, rfl⟩
  | cons a t ih =>
    intro h
    obtain ⟨b, hb⟩ := Option.isSome_iff_exists.mp (h a (by simp))
    obtain ⟨bs, hbs, hlen⟩ := ih (fun x hx => h x (by simp [hx]))
    exact ⟨b :: bs, by simp [optionTraverse, hb, hbs], by simp [hlen]⟩

theorem exceptTraverse_ok_of_forall {α β : Type} (f : α → Except String β) (g : α → β) :
    ∀ (l : List α), (∀ x ∈ l, f x = .ok (g x)) →
      exceptTraverse f l = .ok (l.map g) := by
  intro l
  induction l with
  | nil => intro _; rfl
  | cons a t ih =>
    intro h
    have ha := h a (by simp)
    have ht := ih (fun x hx => h x (by simp [hx]))
    simp [exceptTraverse, ha, ht]

theorem exceptTraverse_error_head {α β : Type} (f : α → Except String β) (a : α)
    (t : List α) (e : String) (h : f a = .error e) :
    exceptTraverse f (a :: t) = .error e := by
  simp [exceptTraverse, h]

theorem exceptTraverse_error_msg {α β : Type} (msg : String)
    (f : α → Except String β) (hf : ∀ x e, f x = .error e → e = msg) :
    ∀ (l : List α) (e : String), exceptTraverse f l = .error e → e = msg := by
  intro l
  induction l with
  | nil => intro e h; cases h
  | cons a t ih =>
    intro e h
    simp only [exceptTraverse] at h
    cases hfa : f a with
    | error e1 =>
      rw [hfa] at h
      injection h with he
      subst he
      exact hf a _ hfa
    | ok b =>
      rw [hfa] at h
      cases ht : exceptTraverse f t with
      | error e2 =>
        rw [ht] at h
        injection h with he
        subst he
        exact ih _ ht
      | ok bs => rw [ht] at h; cases h

theorem intRange_eq_nil {lo hi : Int} (h : hi ≤ lo) : intRange lo hi = [] := by
  unfold intRange
  have : (hi - lo).toNat = 0 := by omega
  simp [this]

theorem mem_intRange {lo hi i : Int} : i ∈ intRange lo hi ↔ lo ≤ i ∧ i < hi := by
  simp only [intRange, List.mem_map, List.mem_range]
  constructor
  · rintro ⟨k, hk, rfl⟩
    omega
  · rintro ⟨h1, h2⟩
    exact ⟨(i - lo).toNat, by omega, by omega⟩

theorem intRange_cons {lo hi : Int} (h : lo < hi) :
    intRange lo hi = lo :: intRange (lo + 1) hi := by
  unfold intRange
  obtain ⟨k, hk⟩ : ∃ k : Nat, (hi - lo).toNat = k + 1 :=
    ⟨(hi - lo).toNat - 1, by omega⟩
  have hk2 : (hi - (lo + 1)).toNat = k := by omega
  rw [hk, hk2, List.range_succ_eq_map, List.map_cons, List.map_map]
  refine congrArg₂ _ (by omega) ?_
  apply List.map_congr_left
  intro m hm
  simp only [Function.comp_apply]
  omega

theorem intRange_length {lo hi : Int} : (intRange lo hi).length = (hi - lo).toNat := by
  simp [intRange]

/-! Projection lemmas for the phases of DoConv. -/

theorem execPhase_searchInvoked (env : Env) (a : DoConvArgs) (conv : ConvRunner)
    (bi : Bool) (bd : Option GpuConvDescriptor) (si : Bool) (sz : Nat)
    (bufs rbufs : List Nat) :
    (execPhase env a conv bi bd si sz bufs rbufs).searchInvoked = si := by
  unfold execPhase
  split
  · split <;> rfl
  · rfl

theorem execPhase_builderInvoked (env : Env) (a : DoConvArgs) (conv : ConvRunner)
    (bi : Bool) (bd : Option GpuConvDescriptor) (si : Bool) (sz : Nat)
    (bufs rbufs : List Nat) :
    (execPhase env a conv bi bd si sz bufs rbufs).builderInvoked = bi := by
  unfold execPhase
  split
  · split <;> rfl
  · rfl

theorem execPhase_builtDescriptor (env : Env) (a : DoConvArgs) (conv : ConvRunner)
    (bi : Bool) (bd : Option GpuConvDescriptor) (si : Bool) (sz : Nat)
    (bufs rbufs : List Nat) :
    (execPhase env a conv bi bd si sz bufs rbufs).builtDescriptor = bd := by
  unfold execPhase
  split
  · split <;> rfl
  · rfl

theorem execPhase_runnerAfter (env : Env) (a : DoConvArgs) (conv : ConvRunner)
    (bi : Bool) (bd : Option GpuConvDescriptor) (si : Bool) (sz : Nat)
    (bufs rbufs : List Nat) :
    (execPhase env a conv bi bd si sz bufs rbufs).runnerAfter = some conv := by
  unfold execPhase
  split
  · split <;> rfl
  · rfl

theorem execPhase_requiredScratch (env : Env) (a : DoConvArgs) (conv : ConvRunner)
    (bi : Bool) (bd : Option GpuConvDescriptor) (si : Bool) (sz : Nat)
    (bufs rbufs : List Nat) :
    (execPhase env a conv bi bd si sz bufs rbufs).requiredScratch = some sz := by
  unfold execPhase
  split
  · split <;> rfl
  · rfl

/-- Characterization of a successful GetConvDescriptor build: the window
comes from the window loop, and the algorithm carries the backend-config
algorithm id and the workspace budget exactly when it is non-negative. -/
theorem getConvDescriptor_spec (kind : CudnnConvKind)
    (operand0 operand1 output : StridedMemrefView) (scratch : FlatMemrefView)
    (dims : ConvDimensionNumbers) (w : Window) (b : ConvBackendConfig)
    (attrs : ConvAttrs) (fused : Option FusedConvAttrs)
    (side_input : Option SideInputAttrs)
    (leakyrelu_alpha : Option LeakyReluAlphaAttrs) (d : GpuConvDescriptor)
    (h : getConvDescriptor kind operand0 operand1 output scratch dims w b attrs
        fused side_input leakyrelu_alpha = some d) :
    ∃ window knobs,
      buildWindow dims (applyLayout operand0 b.operand_0_layout) w = some window ∧
      buildKnobs b.knob_ids b.knob_values = some knobs ∧
      d.window = window ∧
      d.backend_config.algorithm.algo_id = b.algorithm ∧
      d.backend_config.algorithm.workspace_size =
        (if b.workspace_size ≥ 0 then some b.workspace_size else none) := by
  have hcopy :
      ({ input_batch_dim := dims.input_batch_dim
         input_feature_dim := dims.input_feature_dim
         input_spatial_dims := dims.input_spatial_dims
         kernel_in_feature_dim := dims.kernel_in_feature_dim
         kernel_out_feature_dim := dims.kernel_out_feature_dim
         kernel_spatial_dims := dims.kernel_spatial_dims
         output_batch_dim := dims.output_batch_dim
         output_feature_dim := dims.output_feature_dim
         output_spatial_dims := dims.output_spatial_dims } : ConvDimensionNumbers) = dims := rfl
  cases hw : buildWindow dims (applyLayout operand0 b.operand_0_layout) w with
  | none => simp [getConvDescriptor, hcopy, hw] at h
  | some window =>
    cases hk : buildKnobs b.knob_ids b.knob_values with
    | none => simp [getConvDescriptor, hcopy, hw, hk] at h
    | some knobs =>
      simp only [getConvDescriptor, hcopy, hw, hk, Option.bind_eq_bind,
        Option.some_bind, Option.some.injEq] at h
      exact ⟨window, knobs, rfl, rfl, by rw [← h], by rw [← h], by rw [← h]⟩

/-- A successfully built runner carries the algorithm id of the backend
config it was built from (the serialized-graph attachment leaves the
algorithm untouched). -/
theorem buildConvRunner_algo (a : DoConvArgs) (bc : ConvBackendConfig)
    (conv : ConvRunner) (h : buildConvRunner a bc = .ok conv) :
    conv.config.desc.backend_config.algorithm.algo_id = bc.algorithm := by
  cases ho : a.outputs.head? with
  | none =>
    simp only [buildConvRunner, ho] at h
    exact Except.noConfusion h
  | some output =>
    cases hd : getConvDescriptor a.kind a.operand0 a.operand1 output a.scratch a.conv_dims
        { window_strides := a.window_strides
          padding := a.padding
          lhs_dilation := a.lhs_dilation
          rhs_dilation := a.rhs_dilation
          window_reversal := a.window_reversal }
        bc
        { feature_group_count := a.feature_group_count, result_scale := a.result_scale }
        (a.activation_mode.map (fun m => { activation_mode := m }))
        (a.side_input_scale.map (fun s => { side_input_scale := s }))
        (a.leakyrelu_alpha.map (fun l => { leaky_relu_alpha := l })) with
    | none =>
      simp only [buildConvRunner, ho, hd] at h
      exact Except.noConfusion h
    | some descriptor =>
      have halgo :=
        (getConvDescriptor_spec _ _ _ _ _ _ _ _ _ _ _ _ _ hd).choose_spec.choose_spec.2.2.2.1
      cases hg : a.serialized_graph with
      | none =>
        simp only [buildConvRunner, ho, hd, hg, Except.ok.injEq] at h
        subst h
        exact halgo
      | some g =>
        simp only [buildConvRunner, ho, hd, hg, Except.ok.injEq] at h
        subst h
        exact halgo

theorem doConvRest_builtDescriptor (env : Env) (a : DoConvArgs) (conv : ConvRunner)
    (bi : Bool) (bd : Option GpuConvDescriptor) (rt : Bool) :
    (doConvRest env a conv bi bd rt).builtDescriptor = bd := by
  cases rt with
  | false => simp [doConvRest, execPhase_builtDescriptor]
  | true =>
    cases hc : env.cudaEnabled with
    | false => simp [doConvRest, hc]
    | true =>
      cases hs : env.searchResult with
      | error e => simp [doConvRest, hc, hs]
      | ok best => simp [doConvRest, hc, hs, execPhase_builtDescriptor]

theorem doConvRest_builderInvoked (env : Env) (a : DoConvArgs) (conv : ConvRunner)
    (bi : Bool) (bd : Option GpuConvDescriptor) (rt : Bool) :
    (doConvRest env a conv bi bd rt).builderInvoked = bi := by
  cases rt with
  | false => simp [doConvRest, execPhase_builderInvoked]
  | true =>
    cases hc : env.cudaEnabled with
    | false => simp [doConvRest, hc]
    | true =>
      cases hs : env.searchResult with
      | error e => simp [doConvRest, hc, hs]
      | ok best => simp [doConvRest, hc, hs, execPhase_builderInvoked]

theorem doConvRest_runnerAfter_isSome (env : Env) (a : DoConvArgs) (conv : ConvRunner)
    (bi : Bool) (bd : Option GpuConvDescriptor) (rt : Bool) :
    (doConvRest env a conv bi bd rt).runnerAfter.isSome = true := by
  cases rt with
  | false => simp [doConvRest, execPhase_runnerAfter]
  | true =>
    cases hc : env.cudaEnabled with
    | false => simp [doConvRest, hc]
    | true =>
      cases hs : env.searchResult with
      | error e => simp [doConvRest, hc, hs]
      | ok best => simp [doConvRest, hc, hs, execPhase_runnerAfter]

theorem doConvRest_auto_searchInvoked (env : Env) (a : DoConvArgs) (conv : ConvRunner)
    (bi : Bool) (bd : Option GpuConvDescriptor) (hcuda : env.cudaEnabled = true) :
    (doConvRest env a conv bi bd true).searchInvoked = true := by
  cases hs : env.searchResult with
  | error e => simp [doConvRest, hcuda, hs]
  | ok best => simp [doConvRest, hcuda, hs, execPhase_searchInvoked]

theorem doConvRest_noauto_searchInvoked (env : Env) (a : DoConvArgs) (conv : ConvRunner)
    (bi : Bool) (bd : Option GpuConvDescriptor) :
    (doConvRest env a conv bi bd false).searchInvoked = false := by
  simp [doConvRest, execPhase_searchInvoked]

theorem doConvRest_nocuda (env : Env) (a : DoConvArgs) (conv : ConvRunner)
    (bi : Bool) (bd : Option GpuConvDescriptor) (hcuda : env.cudaEnabled = false) :
    (doConvRest env a conv bi bd true).status =
        .error "Failed to run runtime autotuner because CUDA is not enabled" ∧
    (doConvRest env a conv bi bd true).execCalls = [] ∧
    (doConvRest env a conv bi bd true).searchInvoked = false ∧
    (doConvRest env a conv bi bd true).allocRequests = [] := by
  refine ⟨?_, ?_, ?_, ?_⟩ <;> simp [doConvRest, hcuda]

theorem doConvRest_cases (env : Env) (a : DoConvArgs) (conv : ConvRunner)
    (bi : Bool) (bd : Option GpuConvDescriptor) (rt : Bool) :
    ((doConvRest env a conv bi bd rt).execCalls = [] ∧
     (doConvRest env a conv bi bd rt).requiredScratch = none) ∨
    (∃ conv2 si sz,
      doConvRest env a conv bi bd rt =
        execPhase env a conv2 bi bd si sz (convOperandBuffers a) (convResultBuffers a)) := by
  cases rt with
  | false =>
    right
    exact ⟨conv, false, a.scratch.size_in_bytes, rfl⟩
  | true =>
    cases hc : env.cudaEnabled with
    | false => left; simp [doConvRest, hc]
    | true =>
      cases hs : env.searchResult with
      | error e => left; simp [doConvRest, hc, hs]
      | ok best =>
        right
        refine ⟨{ conv with config := { conv.config with algorithm :=
          { algo_id := best.algo_id, tensor_ops_enabled := best.tensor_ops_enabled } } },
          true, best.scratch_bytes, ?_⟩
        simp [doConvRest, hc, hs]

theorem doConv_some (env : Env) (conv : ConvRunner) (a : DoConvArgs) :
    doConv env (some conv) a =
      doConvRest env a conv false none (decide (a.backend_config.algorithm = -1)) := rfl

theorem doConv_none (env : Env) (a : DoConvArgs) :
    doConv env none a =
      (match buildConvRunner a
          (if decide (a.backend_config.algorithm = -1) then
            { a.backend_config with algorithm := 0 }
          else a.backend_config) with
        | .error e =>
          { status := .error e
            runnerAfter := none
            builderInvoked := true
            builtDescriptor := none
            searchInvoked := false
            allocRequests := []
            execCalls := []
            requiredScratch := none
            streamChecked := false }
        | .ok conv =>
          doConvRest env a conv true (some conv.config.desc)
            (decide (a.backend_config.algorithm = -1))) := rfl

theorem doConv_cases (env : Env) (runner : Option ConvRunner) (a : DoConvArgs) :
    ((doConv env runner a).execCalls = [] ∧
     (doConv env runner a).requiredScratch = none) ∨
    (∃ conv2 bi bd si sz,
      doConv env runner a =
        execPhase env a conv2 bi bd si sz (convOperandBuffers a) (convResultBuffers a)) := by
  cases runner with
  | some conv =>
    rw [doConv_some]
    rcases doConvRest_cases env a conv false none
        (decide (a.backend_config.algorithm = -1)) with h | ⟨c2, si, sz, h⟩
    · exact Or.inl h
    · exact Or.inr ⟨c2, false, none, si, sz, h⟩
  | none =>
    rw [doConv_none]
    cases hb : buildConvRunner a
        (if decide (a.backend_config.algorithm = -1) then
          { a.backend_config with algorithm := 0 }
        else a.backend_config) with
    | error e => exact Or.inl ⟨rfl, rfl⟩
    | ok conv =>
      rcases doConvRest_cases env a conv true (some conv.config.desc)
          (decide (a.backend_config.algorithm = -1)) with h | ⟨c2, si, sz, h⟩
      · exact Or.inl h
      · exact Or.inr ⟨c2, true, some conv.config.desc, si, sz, h⟩

theorem execPhase_scratch_spec (env : Env) (a : DoConvArgs) (conv : ConvRunner)
    (bi : Bool) (bd : Option GpuConvDescriptor) (si : Bool) (sz : Nat)
    (bufs rbufs : List Nat) :
    (a.scratch.size_in_bytes < sz →
      (execPhase env a conv bi bd si sz bufs rbufs).allocRequests
          = [(env.deviceOrdinal, sz)] ∧
      (env.allocOk = true →
        (execPhase env a conv bi bd si sz bufs rbufs).execCalls.map
            (fun c => (c.scratch_addr, c.scratch_size)) = [(env.freshAddr, sz)])) ∧
    (sz ≤ a.scratch.size_in_bytes →
      (execPhase env a conv bi bd si sz bufs rbufs).allocRequests = [] ∧
      (execPhase env a conv bi bd si sz bufs rbufs).execCalls.map
          (fun c => (c.scratch_addr, c.scratch_size))
        = [(a.scratch.addr, a.scratch.size_in_bytes)]) := by
  by_cases hlt : a.scratch.size_in_bytes < sz
  · refine ⟨fun _ => ?_, fun hle => absurd hle (by omega)⟩
    cases hao : env.allocOk with
    | true => simp [execPhase, hlt, hao]
    | false => simp [execPhase, hlt, hao]
  · refine ⟨fun hlt2 => absurd hlt2 hlt, fun _ => ?_⟩
    simp [execPhase, hlt]

theorem execPhase_exec_spec (env : Env) (a : DoConvArgs) (conv : ConvRunner)
    (bi : Bool) (bd : Option GpuConvDescriptor) (si : Bool) (sz : Nat)
    (bufs rbufs : List Nat)
    (h : (execPhase env a conv bi bd si sz bufs rbufs).execCalls ≠ []) :
    (execPhase env a conv bi bd si sz bufs rbufs).status = runAndCheckStream env ∧
    (execPhase env a conv bi bd si sz bufs rbufs).streamChecked
      = (match env.runConvResult with | .ok _ => true | .error _ => false) := by
  by_cases hlt : a.scratch.size_in_bytes < sz
  · cases hao : env.allocOk with
    | true => exact ⟨by simp [execPhase, hlt, hao], by simp [execPhase, hlt, hao]⟩
    | false => exact absurd (by simp [execPhase, hlt, hao]) h
  · exact ⟨by simp [execPhase, hlt], by simp [execPhase, hlt]⟩

/-- C1: the descriptor builder is claimed to take the i-th window dimension
size from the kernel operand (operand1) at the axis named by the i-th kernel
spatial dimension. The code instead reads operand0_shape (conv.cc line 286),
contradicting its own comment on lines 281 to 284. At a concrete input whose
operand0 extents at the kernel spatial axes 2 and 3 are 5 and 7 while the
kernel operand extents there are 9 and 11, the built window sizes are 5 and
7 and differ from the kernel extents 9 and 11 required by the claim. -/
theorem c1_window_sizes_come_from_operand0 :
    (getConvDescriptor .kForward exOperand0 exOperand1 exOutput exScratch
        exConvDims exWindow (exBackendConfig 0 (-1))
        { feature_group_count := 1, result_scale := 1 } none none none).map
      (fun d => d.window.map (fun wd => wd.size)) = some [5, 7] ∧
    (intGet exOperand1.dims 2, intGet exOperand1.dims 3) = (some 9, some 11) ∧
    [(5 : Int), 7] ≠ [9, 11] := by
  refine ⟨by decide, by decide, by decide⟩

/-- C9: a backend-config workspace size that is non-negative is carried by
the built descriptor as an explicit workspace budget on the algorithm, and a
negative workspace size leaves the workspace field unset. -/
theorem c9_workspace_budget (kind : CudnnConvKind)
    (operand0 operand1 output : StridedMemrefView) (scratch : FlatMemrefView)
    (dims : ConvDimensionNumbers) (w : Window) (b : ConvBackendConfig)
    (attrs : ConvAttrs) (fused : Option FusedConvAttrs)
    (side_input : Option SideInputAttrs)
    (leakyrelu_alpha : Option LeakyReluAlphaAttrs) (d : GpuConvDescriptor)
    (h : getConvDescriptor kind operand0 operand1 output scratch dims w b attrs
        fused side_input leakyrelu_alpha = some d) :
    d.backend_config.algorithm.workspace_size =
      (if b.workspace_size ≥ 0 then some b.workspace_size else none) := by
  obtain ⟨window, knobs, _, _, _, _, hws⟩ :=
    getConvDescriptor_spec _ _ _ _ _ _ _ _ _ _ _ _ _ h
  exact hws

/-- C9 witness: at a concrete build with workspace size 7 the descriptor
carries the explicit budget 7. -/
theorem c9_workspace_budget_witness :
    (getConvDescriptor .kForward exOperand0 exOperand1 exOutput exScratch
        exConvDims exWindow (exBackendConfig 0 7)
        { feature_group_count := 1, result_scale := 1 } none none none).map
      (fun d => d.backend_config.algorithm.workspace_size) = some (some 7) := by
  cases hd : getConvDescriptor .kForward exOperand0 exOperand1 exOutput exScratch
      exConvDims exWindow (exBackendConfig 0 7)
      { feature_group_count := 1, result_scale := 1 } none none none with
  | none => exact absurd hd (by decide)
  | some d =>
    simp only [Option.map_some', Option.some.injEq]
    rw [c9_workspace_budget _ _ _ _ _ _ _ _ _ _ _ _ d hd]
    decide

/-- C10: the window loop creates exactly one window dimension per entry of
window_strides, and under the precondition that the padding, dilation,
reversal and kernel-spatial-dimension arrays are at least that long and that
every kernel spatial dimension names a valid axis of the operand0 shape,
every indexed access of the loop is in bounds (the build succeeds). -/
theorem c10_window_rank_in_bounds (dnums : ConvDimensionNumbers)
    (operand0_shape : Shape) (w : Window)
    (hp : w.window_strides.length ≤ w.padding.length)
    (hl : w.window_strides.length ≤ w.lhs_dilation.length)
    (hrd : w.window_strides.length ≤ w.rhs_dilation.length)
    (hwr : w.window_strides.length ≤ w.window_reversal.length)
    (hk : w.window_strides.length ≤ dnums.kernel_spatial_dims.length)
    (hax : ∀ i, i < w.window_strides.length →
        0 ≤ dnums.kernel_spatial_dims.getD i 0 ∧
        (dnums.kernel_spatial_dims.getD i 0).toNat < operand0_shape.dims.length) :
    (∃ win, buildWindow dnums operand0_shape w = some win ∧
        win.length = w.window_strides.length) ∧
    (∀ kind op0 op1 out scr b attrs fused si la d,
        getConvDescriptor kind op0 op1 out scr dnums w b attrs fused si la
          = some d →
        d.window.length = w.window_strides.length) := by
  constructor
  · have hall : ∀ i ∈ List.range w.window_strides.length,
        (buildWindowDim dnums operand0_shape w i).isSome = true := by
      intro i hi
      rw [List.mem_range] at hi
      have hki : i < dnums.kernel_spatial_dims.length := lt_of_lt_of_le hi hk
      obtain ⟨h0k, hkd⟩ := hax i hi
      have h1 : dnums.kernel_spatial_dims[i]?
          = some (dnums.kernel_spatial_dims.getD i 0) := by
        rw [List.getD_eq_getElem _ _ hki]
        exact List.getElem?_eq_getElem hki
      have h2 : intGet operand0_shape.dims (dnums.kernel_spatial_dims.getD i 0)
          = some (operand0_shape.dims.get ⟨(dnums.kernel_spatial_dims.getD i 0).toNat, hkd⟩) := by
        unfold intGet
        rw [if_pos h0k]
        exact List.getElem?_eq_getElem hkd
      have h3 := List.getElem?_eq_getElem hi
      have h4 := List.getElem?_eq_getElem (lt_of_lt_of_le hi hp)
      have h5 := List.getElem?_eq_getElem (lt_of_lt_of_le hi hl)
      have h6 := List.getElem?_eq_getElem (lt_of_lt_of_le hi hrd)
      have h7 := List.getElem?_eq_getElem (lt_of_lt_of_le hi hwr)
      simp only [buildWindowDim, h1, h2, h3, h4, h5, h6, h7,
        Option.bind_eq_bind, Option.some_bind, Option.isSome_some]
    obtain ⟨win, hwin, hlen⟩ :=
      optionTraverse_isSome (buildWindowDim dnums operand0_shape w)
        (List.range w.window_strides.length) hall
    refine ⟨win, hwin, ?_⟩
    rw [hlen, List.length_range]
  · intro kind op0 op1 out scr b attrs fused si la d hd
    obtain ⟨window, knobs, hw, _, hdw, _, _⟩ :=
      getConvDescriptor_spec _ _ _ _ _ _ _ _ _ _ _ _ _ hd
    rw [hdw]
    have hlen := optionTraverse_length
      (buildWindowDim dnums (applyLayout op0 b.operand_0_layout) w)
      (List.range w.window_strides.length) window hw
    rw [hlen, List.length_range]

/-- C10 witness: the precondition holds at the rank-2 example window over an
operand0 shape of rank 4, so the build succeeds with window rank 2. -/
theorem c10_window_rank_in_bounds_witness :
    (∃ win, buildWindow exConvDims
        { dims := [1, 1, 5, 7], minor_to_major := [3, 2, 1, 0] } exWindow = some win ∧
        win.length = exWindow.window_strides.length) ∧
    (∀ kind op0 op1 out scr b attrs fused si la d,
        getConvDescriptor kind op0 op1 out scr exConvDims exWindow b attrs fused si la
          = some d →
        d.window.length = exWindow.window_strides.length) :=
  c10_window_rank_in_bounds exConvDims
    { dims := [1, 1, 5, 7], minor_to_major := [3, 2, 1, 0] } exWindow
    (by decide) (by decide) (by decide) (by decide) (by decide) (by decide)

theorem doConv_none_error (env : Env) (a : DoConvArgs) (e : String)
    (hb : buildConvRunner a
        (if decide (a.backend_config.algorithm = -1) then
          { a.backend_config with algorithm := 0 }
        else a.backend_config) = .error e) :
    doConv env none a =
      { status := .error e
        runnerAfter := none
        builderInvoked := true
        builtDescriptor := none
        searchInvoked := false
        allocRequests := []
        execCalls := []
        requiredScratch := none
        streamChecked := false } := by
  rw [doConv_none, hb]

theorem doConv_none_ok (env : Env) (a : DoConvArgs) (conv : ConvRunner)
    (hb : buildConvRunner a
        (if decide (a.backend_config.algorithm = -1) then
          { a.backend_config with algorithm := 0 }
        else a.backend_config) = .ok conv) :
    doConv env none a =
      doConvRest env a conv true (some conv.config.desc)
        (decide (a.backend_config.algorithm = -1)) := by
  rw [doConv_none, hb]

/-- C3: within one invocation whose plan resolves and with the search
capability present, the algorithm search is invoked exactly when the
backend-config algorithm is the sentinel -1; a built descriptor never
carries the sentinel, and under the sentinel it carries the pinned default
algorithm 0. -/
theorem c3_sentinel_triggers_search (env : Env) (runner : Option ConvRunner)
    (a : DoConvArgs) (hcuda : env.cudaEnabled = true)
    (hr : (doConv env runner a).runnerAfter.isSome = true) :
    ((doConv env runner a).searchInvoked = true ↔ a.backend_config.algorithm = -1) ∧
    (∀ d, (doConv env runner a).builtDescriptor = some d →
        d.backend_config.algorithm.algo_id ≠ -1) ∧
    (a.backend_config.algorithm = -1 →
      ∀ d, (doConv env runner a).builtDescriptor = some d →
        d.backend_config.algorithm.algo_id = 0) := by
  cases runner with
  | some conv =>
    rw [doConv_some]
    by_cases halg : a.backend_config.algorithm = -1
    · have hdec : decide (a.backend_config.algorithm = -1) = true := by simp [halg]
      rw [hdec]
      refine ⟨?_, ?_, ?_⟩
      · simp [doConvRest_auto_searchInvoked env a conv false none hcuda, halg]
      · intro d hd
        rw [doConvRest_builtDescriptor] at hd
        cases hd
      · intro _ d hd
        rw [doConvRest_builtDescriptor] at hd
        cases hd
    · have hdec : decide (a.backend_config.algorithm = -1) = false := by simp [halg]
      rw [hdec]
      refine ⟨?_, ?_, ?_⟩
      · simp [doConvRest_noauto_searchInvoked, halg]
      · intro d hd
        rw [doConvRest_builtDescriptor] at hd
        cases hd
      · intro hs
        exact absurd hs halg
  | none =>
    by_cases halg : a.backend_config.algorithm = -1
    · have hdec : decide (a.backend_config.algorithm = -1) = true := by simp [halg]
      cases hb : buildConvRunner a
          (if decide (a.backend_config.algorithm = -1) then
            { a.backend_config with algorithm := 0 }
          else a.backend_config) with
      | error e =>
        rw [doConv_none_error env a e hb] at hr
        simp at hr
      | ok conv =>
        have halgo := buildConvRunner_algo a _ conv hb
        simp only [hdec, if_true] at halgo
        rw [doConv_none_ok env a conv hb, hdec]
        refine ⟨?_, ?_, ?_⟩
        · simp [doConvRest_auto_searchInvoked env a conv true (some conv.config.desc) hcuda, halg]
        · intro d hd
          rw [doConvRest_builtDescriptor] at hd
          injection hd with hd2
          rw [← hd2, halgo]
          decide
        · intro _ d hd
          rw [doConvRest_builtDescriptor] at hd
          injection hd with hd2
          rw [← hd2, halgo]
    · have hdec : decide (a.backend_config.algorithm = -1) = false := by simp [halg]
      cases hb : buildConvRunner a
          (if decide (a.backend_config.algorithm = -1) then
            { a.backend_config with algorithm := 0 }
          else a.backend_config) with
      | error e =>
        rw [doConv_none_error env a e hb] at hr
        simp at hr
      | ok conv =>
        have halgo := buildConvRunner_algo a _ conv hb
        simp only [hdec, Bool.false_eq_true, if_false] at halgo
        rw [doConv_none_ok env a conv hb, hdec]
        refine ⟨?_, ?_, ?_⟩
        · simp [doConvRest_noauto_searchInvoked, halg]
        · intro d hd
          rw [doConvRest_builtDescriptor] at hd
          injection hd with hd2
          rw [← hd2, halgo]
          exact halg
        · intro hs
          exact absurd hs halg

/-- C3 witness: with an explicit algorithm id 5 and an available search
capability, the invocation does not invoke the search. -/
theorem c3_sentinel_triggers_search_witness :
    (doConv exEnvOk none (exDoConvArgs 5)).searchInvoked = false := by
  have h := (c3_sentinel_triggers_search exEnvOk none (exDoConvArgs 5)
    (by decide) (by decide)).1
  rcases Bool.eq_false_or_eq_true ((doConv exEnvOk none (exDoConvArgs 5)).searchInvoked)
    with ht | hf
  · exact absurd (h.mp ht) (by decide)
  · exact hf

/-- C2 counterexample: at a concrete sentinel call site, across two
invocations the cached plan is reused by the second call (builder not
invoked) yet the algorithm search is invoked again on the second call, so
the search does not run exactly once. -/
theorem c2_counterexample_search_reruns :
    (doConv exEnvOk none (exDoConvArgs (-1))).searchInvoked = true ∧
    (doConv exEnvOk (doConv exEnvOk none (exDoConvArgs (-1))).runnerAfter
        (exDoConvArgs (-1))).builderInvoked = false ∧
    (doConv exEnvOk (doConv exEnvOk none (exDoConvArgs (-1))).runnerAfter
        (exDoConvArgs (-1))).searchInvoked = true := by
  refine ⟨by decide, by decide, by decide⟩

/-- C2 (amended): across two invocations of a sentinel call site with the
search capability available, the plan builder runs only on the first
invocation (the plan is cached and reused), but the algorithm search is
invoked on every invocation, the second included. -/
theorem c2_plan_once_search_each_call (env : Env) (a : DoConvArgs)
    (h1 : a.backend_config.algorithm = -1) (h2 : env.cudaEnabled = true)
    (h3 : (doConv env none a).runnerAfter.isSome = true) :
    (doConv env none a).builderInvoked = true ∧
    (doConv env none a).searchInvoked = true ∧
    (doConv env (doConv env none a).runnerAfter a).builderInvoked = false ∧
    (doConv env (doConv env none a).runnerAfter a).searchInvoked = true := by
  have hdec : decide (a.backend_config.algorithm = -1) = true := by simp [h1]
  cases hb : buildConvRunner a
      (if decide (a.backend_config.algorithm = -1) then
        { a.backend_config with algorithm := 0 }
      else a.backend_config) with
  | error e =>
    rw [doConv_none_error env a e hb] at h3
    simp at h3
  | ok conv =>
    have hred := doConv_none_ok env a conv hb
    rw [hred, hdec]
    obtain ⟨conv2, hc2⟩ : ∃ c,
        (doConvRest env a conv true (some conv.config.desc) true).runnerAfter = some c :=
      Option.isSome_iff_exists.mp
        (doConvRest_runnerAfter_isSome env a conv true (some conv.config.desc) true)
    rw [hc2, doConv_some, hdec]
    exact ⟨doConvRest_builderInvoked env a conv true (some conv.config.desc) true,
      doConvRest_auto_searchInvoked env a conv true (some conv.config.desc) h2,
      doConvRest_builderInvoked env a conv2 false none true,
      doConvRest_auto_searchInvoked env a conv2 false none h2⟩

/-- C2 witness: the amended statement instantiated at the concrete sentinel
call site and all-capabilities-succeed environment. -/
theorem c2_plan_once_search_each_call_witness :
    (doConv exEnvOk none (exDoConvArgs (-1))).builderInvoked = true ∧
    (doConv exEnvOk none (exDoConvArgs (-1))).searchInvoked = true ∧
    (doConv exEnvOk (doConv exEnvOk none (exDoConvArgs (-1))).runnerAfter
        (exDoConvArgs (-1))).builderInvoked = false ∧
    (doConv exEnvOk (doConv exEnvOk none (exDoConvArgs (-1))).runnerAfter
        (exDoConvArgs (-1))).searchInvoked = true :=
  c2_plan_once_search_each_call exEnvOk (exDoConvArgs (-1))
    (by decide) (by decide) (by decide)

/-- C5: with required scratch size S and caller-supplied scratch of size s0,
if S exceeds s0 a fresh allocation of exactly S bytes is requested from the
allocator for the current device ordinal and the execution uses that buffer;
if S fits, no allocation is requested and the supplied buffer is used
unchanged. -/
theorem c5_scratch_growth (env : Env) (runner : Option ConvRunner)
    (a : DoConvArgs) (S : Nat)
    (h : (doConv env runner a).requiredScratch = some S) :
    (a.scratch.size_in_bytes < S →
      (doConv env runner a).allocRequests = [(env.deviceOrdinal, S)] ∧
      (env.allocOk = true →
        (doConv env runner a).execCalls.map
            (fun c => (c.scratch_addr, c.scratch_size)) = [(env.freshAddr, S)])) ∧
    (S ≤ a.scratch.size_in_bytes →
      (doConv env runner a).allocRequests = [] ∧
      (doConv env runner a).execCalls.map
          (fun c => (c.scratch_addr, c.scratch_size))
        = [(a.scratch.addr, a.scratch.size_in_bytes)]) := by
  rcases doConv_cases env runner a with ⟨hec, hrs⟩ | ⟨conv2, bi, bd, si, sz, heq⟩
  · rw [h] at hrs
    cases hrs
  · rw [heq] at h ⊢
    rw [execPhase_requiredScratch] at h
    injection h with h2
    subst h2
    exact execPhase_scratch_spec env a conv2 bi bd si sz
      (convOperandBuffers a) (convResultBuffers a)

/-- C5 witness: autotuning reports a 999-byte requirement against a 64-byte
caller buffer, so one allocation of exactly 999 bytes on device ordinal 3 is
requested and used. -/
theorem c5_scratch_growth_witness :
    ((exDoConvArgs (-1)).scratch.size_in_bytes < 999 →
      (doConv exEnvOk none (exDoConvArgs (-1))).allocRequests
          = [(exEnvOk.deviceOrdinal, 999)] ∧
      (exEnvOk.allocOk = true →
        (doConv exEnvOk none (exDoConvArgs (-1))).execCalls.map
            (fun c => (c.scratch_addr, c.scratch_size)) = [(exEnvOk.freshAddr, 999)])) ∧
    (999 ≤ (exDoConvArgs (-1)).scratch.size_in_bytes →
      (doConv exEnvOk none (exDoConvArgs (-1))).allocRequests = [] ∧
      (doConv exEnvOk none (exDoConvArgs (-1))).execCalls.map
          (fun c => (c.scratch_addr, c.scratch_size))
        = [((exDoConvArgs (-1)).scratch.addr, (exDoConvArgs (-1)).scratch.size_in_bytes)]) :=
  c5_scratch_growth exEnvOk none (exDoConvArgs (-1)) 999 (by decide)

/-- C6: a sentinel invocation in an environment without the search
capability fails with an error status, never issues the device primitive,
never invokes the search, and never allocates; when the plan resolved, the
status is exactly the configuration error of the autotuner. -/
theorem c6_autotune_unavailable (env : Env) (runner : Option ConvRunner)
    (a : DoConvArgs) (h1 : a.backend_config.algorithm = -1)
    (h2 : env.cudaEnabled = false) :
    (∃ e, (doConv env runner a).status = .error e) ∧
    (doConv env runner a).execCalls = [] ∧
    (doConv env runner a).searchInvoked = false ∧
    (doConv env runner a).allocRequests = [] ∧
    ((doConv env runner a).runnerAfter.isSome = true →
      (doConv env runner a).status =
        .error "Failed to run runtime autotuner because CUDA is not enabled") := by
  have hdec : decide (a.backend_config.algorithm = -1) = true := by simp [h1]
  cases runner with
  | some conv =>
    rw [doConv_some, hdec]
    obtain ⟨hst, hec, hsi, har⟩ := doConvRest_nocuda env a conv false none h2
    exact ⟨⟨_, hst⟩, hec, hsi, har, fun _ => hst⟩
  | none =>
    cases hb : buildConvRunner a
        (if decide (a.backend_config.algorithm = -1) then
          { a.backend_config with algorithm := 0 }
        else a.backend_config) with
    | error e =>
      rw [doConv_none_error env a e hb]
      exact ⟨⟨e, rfl⟩, rfl, rfl, rfl, fun hcontra => by simp at hcontra⟩
    | ok conv =>
      rw [doConv_none_ok env a conv hb, hdec]
      obtain ⟨hst, hec, hsi, har⟩ :=
        doConvRest_nocuda env a conv true (some conv.config.desc) h2
      exact ⟨⟨_, hst⟩, hec, hsi, har, fun _ => hst⟩

/-- C6 witness: the concrete sentinel call in the environment without the
search capability. -/
theorem c6_autotune_unavailable_witness :
    (∃ e, (doConv exEnvNoCuda none (exDoConvArgs (-1))).status = .error e) ∧
    (doConv exEnvNoCuda none (exDoConvArgs (-1))).execCalls = [] ∧
    (doConv exEnvNoCuda none (exDoConvArgs (-1))).searchInvoked = false ∧
    (doConv exEnvNoCuda none (exDoConvArgs (-1))).allocRequests = [] ∧
    ((doConv exEnvNoCuda none (exDoConvArgs (-1))).runnerAfter.isSome = true →
      (doConv exEnvNoCuda none (exDoConvArgs (-1))).status =
        .error "Failed to run runtime autotuner because CUDA is not enabled") :=
  c6_autotune_unavailable exEnvNoCuda none (exDoConvArgs (-1)) (by decide) (by decide)

/-- C7: whenever the device primitive was issued, the call returns ok
exactly when both the primitive succeeded and the post-execution stream
health check passed; and whenever the primitive reported success the stream
health was checked. -/
theorem c7_stream_health_checked (env : Env) (runner : Option ConvRunner)
    (a : DoConvArgs) (h : (doConv env runner a).execCalls ≠ []) :
    ((doConv env runner a).status = .ok ()
        ↔ (env.runConvResult = .ok () ∧ env.streamOk = true)) ∧
    (env.runConvResult = .ok () → (doConv env runner a).streamChecked = true) := by
  rcases doConv_cases env runner a with ⟨hec, _⟩ | ⟨conv2, bi, bd, si, sz, heq⟩
  · exact absurd hec h
  · rw [heq] at h ⊢
    obtain ⟨hst, hchk⟩ := execPhase_exec_spec env a conv2 bi bd si sz
      (convOperandBuffers a) (convResultBuffers a) h
    rw [hst, hchk]
    constructor
    · cases hrc : env.runConvResult with
      | error e => simp [runAndCheckStream, hrc]
      | ok u =>
        cases u
        cases hso : env.streamOk with
        | true => simp [runAndCheckStream, hrc, hso]
        | false => simp [runAndCheckStream, hrc, hso]
    · intro hrc
      simp [hrc]

/-- C7 witness: the fixed-algorithm call in the all-ok environment issues
the primitive and returns ok, matching both sides of the equivalence. -/
theorem c7_stream_health_checked_witness :
    ((doConv exEnvOk none (exDoConvArgs 5)).status = .ok ()
        ↔ (exEnvOk.runConvResult = .ok () ∧ exEnvOk.streamOk = true)) ∧
    (exEnvOk.runConvResult = .ok () →
      (doConv exEnvOk none (exDoConvArgs 5)).streamChecked = true) :=
  c7_stream_health_checked exEnvOk none (exDoConvArgs 5) (by decide)

theorem exceptOkBind {α β : Type} (a : α) (f : α → Except String β) :
    (Except.ok a >>= f) = f a := rfl

theorem exceptErrorBind {α β : Type} (e : String) (f : α → Except String β) :
    ((Except.error e : Except String α) >>= f) = Except.error e := rfl

/-- C4: for a graph call with flat argument list of length N and declared
auxiliary-output count A, the binder resolves the first N - A - 2 entries as
extra operands, the next A + 1 entries as outputs and the last entry as the
scratch buffer; a list shorter than A + 2 yields a binding error; every
binding error is one of the three group-naming errors;
and on any binding error the convolution is not attempted (no device call,
no search, the cached runner untouched) and the error is returned. -/
theorem c4_graph_argument_binding (args : List GraphArg) (nAux : Int)
    (v : Int → StridedMemrefView) (s : FlatMemrefView)
    (hA : 0 ≤ nAux)
    (hv : ∀ i : Int, 0 ≤ i → i < (args.length : Int) - 1 →
        getStridedArg args i = some (v i))
    (hs : getFlatArg args ((args.length : Int) - 1) = some s) :
    (nAux + 2 ≤ (args.length : Int) →
      convGraphBind args nAux =
        .ok ((intRange 0 ((args.length : Int) - nAux - 2)).map v,
             (intRange ((args.length : Int) - nAux - 2) ((args.length : Int) - 1)).map v,
             s)) ∧
    ((args.length : Int) < nAux + 2 →
      ∃ e, convGraphBind args nAux = .error e) ∧
    (∀ e, convGraphBind args nAux = .error e →
      (e = "Failed to get operand buffer for convolution graph" ∨
       e = "Failed to get output buffer for convolution graph" ∨
       e = "Failed to get scratch buffer for convolution graph")) ∧
    (∀ e env runner kind op0 op1 uid cd ws p ld rd wr bc fgc rs sg,
      convGraphBind args nAux = .error e →
      (convGraphImpl env runner kind op0 op1 args uid cd ws p ld rd wr bc fgc
          rs nAux sg).status = .error e ∧
      (convGraphImpl env runner kind op0 op1 args uid cd ws p ld rd wr bc fgc
          rs nAux sg).execCalls = [] ∧
      (convGraphImpl env runner kind op0 op1 args uid cd ws p ld rd wr bc fgc
          rs nAux sg).searchInvoked = false ∧
      (convGraphImpl env runner kind op0 op1 args uid cd ws p ld rd wr bc fgc
          rs nAux sg).runnerAfter = runner) := by
  refine ⟨?_, ?_, ?_, ?_⟩
  · intro hle
    have h1 : exceptTraverse (fun i =>
        match getStridedArg args i with
        | some v2 => Except.ok v2
        | none => Except.error "Failed to get operand buffer for convolution graph")
        (intRange 0 ((args.length : Int) - nAux - 2))
        = .ok ((intRange 0 ((args.length : Int) - nAux - 2)).map v) := by
      apply exceptTraverse_ok_of_forall
      intro i hi
      rw [mem_intRange] at hi
      have hvi : getStridedArg args i = some (v i) := hv i hi.1 (by omega)
      simp only [hvi]
    have h2 : exceptTraverse (fun i =>
        match getStridedArg args i with
        | some v2 => Except.ok v2
        | none => Except.error "Failed to get output buffer for convolution graph")
        (intRange ((args.length : Int) - nAux - 2) ((args.length : Int) - 1))
        = .ok ((intRange ((args.length : Int) - nAux - 2)
            ((args.length : Int) - 1)).map v) := by
      apply exceptTraverse_ok_of_forall
      intro i hi
      rw [mem_intRange] at hi
      have hvi : getStridedArg args i = some (v i) := hv i (by omega) (by omega)
      simp only [hvi]
    simp only [convGraphBind, h1, h2, hs, exceptOkBind]
  · intro hlt
    have hr1 : intRange 0 ((args.length : Int) - nAux - 2) = [] :=
      intRange_eq_nil (by omega)
    have hr2 : intRange ((args.length : Int) - nAux - 2) ((args.length : Int) - 1)
        = ((args.length : Int) - nAux - 2) ::
          intRange ((args.length : Int) - nAux - 2 + 1) ((args.length : Int) - 1) :=
      intRange_cons (by omega)
    have hneg : getStridedArg args ((args.length : Int) - nAux - 2) = none := by
      unfold getStridedArg
      rw [if_neg (by omega)]
    have hhead : (fun i =>
        match getStridedArg args i with
        | some v2 => Except.ok v2
        | none => Except.error "Failed to get output buffer for convolution graph")
        ((args.length : Int) - nAux - 2)
        = Except.error "Failed to get output buffer for convolution graph" := by
      simp only [hneg]
    have herr := exceptTraverse_error_head
      (fun i =>
        match getStridedArg args i with
        | some v2 => Except.ok v2
        | none => Except.error "Failed to get output buffer for convolution graph")
      ((args.length : Int) - nAux - 2)
      (intRange ((args.length : Int) - nAux - 2 + 1) ((args.length : Int) - 1))
      _ hhead
    refine ⟨"Failed to get output buffer for convolution graph", ?_⟩
    simp only [convGraphBind, hr1, hr2, herr, exceptTraverse, exceptOkBind,
      exceptErrorBind]
  · intro e he
    cases ht1 : exceptTraverse (fun i =>
        match getStridedArg args i with
        | some v2 => Except.ok v2
        | none => Except.error "Failed to get operand buffer for convolution graph")
        (intRange 0 ((args.length : Int) - nAux - 2)) with
    | error e1 =>
      simp only [convGraphBind, ht1, exceptErrorBind, Except.error.injEq] at he
      refine Or.inl (he ▸ exceptTraverse_error_msg _ _ ?_ _ _ ht1)
      intro x e2 hx
      cases hx2 : getStridedArg args x with
      | some vv => simp [hx2] at hx
      | none => simp [hx2] at hx; exact hx.symm
    | ok extra =>
      cases ht2 : exceptTraverse (fun i =>
          match getStridedArg args i with
          | some v2 => Except.ok v2
          | none => Except.error "Failed to get output buffer for convolution graph")
          (intRange ((args.length : Int) - nAux - 2) ((args.length : Int) - 1)) with
      | error e2 =>
        simp only [convGraphBind, ht1, ht2, exceptOkBind, exceptErrorBind,
          Except.error.injEq] at he
        refine Or.inr (Or.inl (he ▸ exceptTraverse_error_msg _ _ ?_ _ _ ht2))
        intro x e3 hx
        cases hx2 : getStridedArg args x with
        | some vv => simp [hx2] at hx
        | none => simp [hx2] at hx; exact hx.symm
      | ok outputs =>
        cases hsc : getFlatArg args ((args.length : Int) - 1) with
        | some sc =>
          simp only [convGraphBind, ht1, ht2, hsc, exceptOkBind] at he
          cases he
        | none =>
          simp only [convGraphBind, ht1, ht2, hsc, exceptOkBind,
            Except.error.injEq] at he
          exact Or.inr (Or.inr he.symm)
  · intro e env runner kind op0 op1 uid cd ws p ld rd wr bc fgc rs sg he
    simp [convGraphImpl, he]

/-- C4 witness: the worked example of the spec, a flat list of 7 arguments
with 2 declared auxiliary outputs: 3 extra operands, 3 outputs, 1 scratch. -/
theorem c4_graph_argument_binding_witness :
    (2 + 2 ≤ (exGraphArgs.length : Int) →
      convGraphBind exGraphArgs 2 =
        .ok ((intRange 0 ((exGraphArgs.length : Int) - 2 - 2)).map exGraphV,
             (intRange ((exGraphArgs.length : Int) - 2 - 2)
                ((exGraphArgs.length : Int) - 1)).map exGraphV,
             { addr := 6, size_in_bytes := 8 })) ∧
    ((exGraphArgs.length : Int) < 2 + 2 →
      ∃ e, convGraphBind exGraphArgs 2 = .error e) ∧
    (∀ e, convGraphBind exGraphArgs 2 = .error e →
      (e = "Failed to get operand buffer for convolution graph" ∨
       e = "Failed to get output buffer for convolution graph" ∨
       e = "Failed to get scratch buffer for convolution graph")) ∧
    (∀ e env runner kind op0 op1 uid cd ws p ld rd wr bc fgc rs sg,
      convGraphBind exGraphArgs 2 = .error e →
      (convGraphImpl env runner kind op0 op1 exGraphArgs uid cd ws p ld rd wr bc
          fgc rs 2 sg).status = .error e ∧
      (convGraphImpl env runner kind op0 op1 exGraphArgs uid cd ws p ld rd wr bc
          fgc rs 2 sg).execCalls = [] ∧
      (convGraphImpl env runner kind op0 op1 exGraphArgs uid cd ws p ld rd wr bc
          fgc rs 2 sg).searchInvoked = false ∧
      (convGraphImpl env runner kind op0 op1 exGraphArgs uid cd ws p ld rd wr bc
          fgc rs 2 sg).runnerAfter = runner) :=
  c4_graph_argument_binding exGraphArgs 2 exGraphV { addr := 6, size_in_bytes := 8 }
    (by decide)
    (by
      intro i h1 h2
      have hl : (exGraphArgs.length : Int) = 7 := by decide
      rw [hl] at h2
      interval_cases i <;> decide)
    (by decide)

theorem find_setExecutor_ne (l : List (Nat × StreamExecutorConvRunners))
    (e1 e2 : Nat) (m : StreamExecutorConvRunners) (h : e1 ≠ e2) :
    (setExecutor l e1 m).find? (fun p => p.1 == e2)
      = l.find? (fun p => p.1 == e2) := by
  induction l with
  | nil =>
    simp only [setExecutor, List.find?]
    rw [show ((e1 == e2) = false) from beq_eq_false_iff_ne.mpr h]
  | cons kv rest ih =>
    obtain ⟨k, vv⟩ := kv
    simp only [setExecutor]
    by_cases hk : k = e1
    · subst hk
      simp only [beq_self_eq_true, if_true]
      have h12 : (k == e2) = false := beq_eq_false_iff_ne.mpr h
      simp [List.find?, h12]
    · rw [if_neg (by simpa using hk)]
      by_cases hk2 : k = e2
      · subst hk2
        simp [List.find?]
      · have hke2 : (k == e2) = false := beq_eq_false_iff_ne.mpr hk2
        simp [List.find?, hke2, ih]

/-- C8: two distinct execution contexts never observe each other through the
plan cache: installing or overwriting the plan of any call site under one
executor leaves both the sub-map and every per-call-site lookup of the other
executor unchanged. -/
theorem c8_context_isolation (c : ConvRunnersCache) (e1 e2 : Nat)
    (uid uid2 : Int) (r : ConvRunner) (h : e1 ≠ e2) :
    lookupRunner (updateRunner c e1 uid r) e2 uid2 = lookupRunner c e2 uid2 ∧
    lookupExecutor (updateRunner c e1 uid r) e2 = lookupExecutor c e2 := by
  have hsub : lookupExecutor (updateRunner c e1 uid r) e2 = lookupExecutor c e2 := by
    unfold updateRunner lookupExecutor
    rw [find_setExecutor_ne c.runners e1 e2 _ h]
  exact ⟨by unfold lookupRunner; rw [hsub], hsub⟩

/-- C8 witness: installing a plan for call site 5 under executor 1 does not
change what executor 2 observes for the same call site. -/
theorem c8_context_isolation_witness :
    lookupRunner (updateRunner { runners := [(2, [(5, exRunner)])] } 1 5 exRunner) 2 5
        = lookupRunner { runners := [(2, [(5, exRunner)])] } 2 5 ∧
    lookupExecutor (updateRunner { runners := [(2, [(5, exRunner)])] } 1 5 exRunner) 2
        = lookupExecutor { runners := [(2, [(5, exRunner)])] } 2 :=
  c8_context_isolation { runners := [(2, [(5, exRunner)])] } 1 2 5 5 exRunner (by decide)
